import Mathlib

/-!
Verification model of the lmdbpp C++ wrapper (src/lmdbpp.h).

The development shallowly embeds the wrapper code: the value codec
(detail::to_mdb_val / detail::from_mdb_val), the environment object
(env_t), the transaction object (txn_t) and the database handle object
(dbi_t).  The underlying LMDB engine is out of scope for the repository;
where a claim depends on engine behaviour at the key/value level the
engine primitives are modelled from the spec (see the definitions whose
doc comments start with "Modelled from the spec:").  Engine calls whose
result is opaque are passed in as explicit result-code parameters.

Machine integers: LMDB status codes are C ints, modelled as Int.
Flag words are C unsigned ints, modelled as Nat (all flag constants fit
well below 2 to the 32, and the only arithmetic performed on them is
bitwise, which never overflows).
-/

namespace Lmdbpp

/-! ### Status codes (from lmdb.h, included by src/lmdbpp.h) -/

def MDB_SUCCESS : Int := 0
def MDB_KEYEXIST : Int := -30799
def MDB_NOTFOUND : Int := -30798
def MDB_INVALID : Int := -30793
def MDB_BAD_TXN : Int := -30782
def MDB_BAD_DBI : Int := -30780
def EINVAL : Int := 22
def EPERM : Int := 1

/-! ### Flag constants -/

def MDB_NOSUBDIR : Nat := 0x4000
def MDB_RDONLY : Nat := 0x20000
def MDB_NOOVERWRITE : Nat := 0x10
/-- Wrapper-only flag defined in src/lmdbpp.h line 268: delete files on close. -/
def MDB_EPHEMERAL : Nat := 0x10000000
/-- The C expression (~MDB_EPHEMERAL) on a 32-bit unsigned int. -/
def MDB_EPHEMERAL_COMPL : Nat := 0xEFFFFFFF

/-- Fold of a C++ variadic flag pack, the source expression (0 | ... | flags). -/
def fold_flags (fs : List Nat) : Nat := fs.foldl Nat.lor 0

/-! ### The flat buffer representation (MDB_val)

An MDB_val carries a byte count mv_size and a data pointer mv_data.
A pointer is modelled as Option (List UInt8): none is the null pointer,
some region is a valid pointer to a memory region holding the listed
bytes. -/

structure MDB_val where
  mv_size : Nat
  mv_data : Option (List UInt8)
  deriving DecidableEq, Repr

/-- Reading n bytes through a pointer.  Reading zero bytes never touches
memory and is defined for every pointer, the null pointer included; a
read of n > 0 bytes is defined (some) exactly when the pointer is
non-null and the region holds at least n bytes, and is undefined
behaviour (none) otherwise. -/
def readMem (p : Option (List UInt8)) (n : Nat) : Option (List UInt8) :=
  if n = 0 then some [] else
    match p with
    | some region => if n ≤ region.length then some (region.take n) else none
    | none => none

/-! ### The serializable C++ value types

detail::get_serializable_kind dispatches on the concepts
TriviallySerializable (std::is_trivially_copyable_v), StringLike
(data() convertible to const char pointer, plus size()) and
ByteContainerLike, in that order.  The model covers one representative
per behaviourally distinct class of types:

* trivial bs: any trivially copyable object whose object representation
  is the byte list bs (sizeof = bs.length).  Note that std::string_view
  and std::span of const std::byte are trivially copyable, so they
  dispatch here (with their 16-byte object representation), never to the
  string/bytes branches of the codec: those branches of from_mdb_val are
  unreachable dead code.
* stdString: std::string.  Not trivially copyable, satisfies StringLike;
  its data() member is guaranteed non-null even when the string is empty.
* vectorByte: std::vector of std::byte.  Satisfies ByteContainerLike.
  The dataNull field records whether data() is the null pointer, which a
  real vector can report only when it is empty.
* vectorChar: std::vector of char.  Satisfies StringLike (data() yields
  a char pointer), so to_mdb_val accepts it, but it is none of the four
  concrete types from_mdb_val handles, so decoding hits the fallback
  branch that returns EINVAL. -/

inductive CppVal where
  | trivial (bytes : List UInt8)
  | stdString (content : List UInt8)
  | vectorByte (content : List UInt8) (dataNull : Bool)
  | vectorChar (content : List UInt8)
  deriving DecidableEq, Repr

/-- The static type of a value, as seen by the codec templates. -/
inductive CppTy where
  | trivialTy (width : Nat)
  | stringTy
  | vecByteTy
  | vecCharTy
  deriving DecidableEq, Repr

def CppVal.ty : CppVal → CppTy
  | .trivial bs => .trivialTy bs.length
  | .stdString _ => .stringTy
  | .vectorByte _ _ => .vecByteTy
  | .vectorChar _ => .vecCharTy

/-- The content bytes of a value.  Equality of the modelled C++ values
(operator == on scalars, std::string, std::vector; memberwise bytes for
trivially copyable records) is equality of content bytes. -/
def CppVal.content : CppVal → List UInt8
  | .trivial bs => bs
  | .stdString c => c
  | .vectorByte c _ => c
  | .vectorChar c => c

/-- Representation invariant of the modelled C++ values: a container can
only report a null data() pointer while it is empty. -/
def CppVal.WFrep : CppVal → Prop
  | .vectorByte c dn => dn = true → c = []
  | _ => True

instance : DecidablePred CppVal.WFrep := by
  intro v; cases v <;> simp [CppVal.WFrep] <;> infer_instance

/-- True for the string-like / byte-buffer shapes (not the trivially
copyable shape). -/
def CppVal.isBuffer : CppVal → Bool
  | .trivial _ => false
  | _ => true

/-! ### The codec (src/lmdbpp.h lines 208-263) -/

/-- detail::to_mdb_val.  For the trivially copyable kind the output is
sizeof(T) and the address of the object (never null); for the string and
bytes kinds it is size() and data() of the container, passed through
unchanged.  The result code is MDB_SUCCESS on every branch reachable for
a SerializableLike type (the EINVAL fallback is compiled out by the
concept constraint on the template). -/
def to_mdb_val : CppVal → Int × MDB_val
  | .trivial bs => (MDB_SUCCESS, ⟨bs.length, some bs⟩)
  | .stdString c => (MDB_SUCCESS, ⟨c.length, some c⟩)
  | .vectorByte c dn => (MDB_SUCCESS, ⟨c.length, if dn then none else some c⟩)
  | .vectorChar c => (MDB_SUCCESS, ⟨c.length, some c⟩)

/-- Result of a decode: either an error code returned without writing
the out-parameter, or success having written an out-value with the given
content bytes. -/
inductive DecodeResult where
  | err (code : Int)
  | ok (content : List UInt8)
  deriving DecidableEq, Repr

/-- detail::from_mdb_val, decoding val into an out-value of type ty.
Returns none when the source would read through an invalid pointer
(undefined behaviour), some (.err e) when the source returns the error
code e without writing, and some (.ok c) when the source succeeds having
written an out-value with content bytes c.

Branch structure of the source: the trivially copyable kind is checked
first (size check against sizeof, then memcpy); then the four exact-type
branches for std::string, std::string_view, std::vector of std::byte and
std::span of const std::byte (the string_view and span branches are dead,
those types being trivially copyable); any other type falls through to
the EINVAL fallback. -/
def from_mdb_val (val : MDB_val) (ty : CppTy) : Option DecodeResult :=
  match ty with
  | .trivialTy w =>
      if val.mv_size ≠ w then some (.err EPERM)
      else
        match readMem val.mv_data w with
        | some bs => some (.ok bs)
        | none => none
  | .stringTy =>
      match readMem val.mv_data val.mv_size with
      | some bs => some (.ok bs)
      | none => none
  | .vecByteTy =>
      match readMem val.mv_data val.mv_size with
      | some bs => some (.ok bs)
      | none => none
  | .vecCharTy => some (.err EINVAL)

/-! ### The environment object env_t (src/lmdbpp.h lines 310-767)

The native MDB_env pointer is modelled by the boolean envptr (held or
not); the filesystem path by a String.  lasterror holds the code stored
in the lasterror_ member. -/

structure EnvState where
  envptr : Bool
  isopen : Bool
  maxdbs : Nat
  maxreaders : Nat
  mapsize : Nat
  mode : Nat
  flags : Nat
  path : String
  lasterror : Int
  deriving DecidableEq, Repr

namespace env_t

/-- Getter env_t::getflags, line 606: returns the stored flags_ member
unchanged, callable at any time. -/
def getflags (s : EnvState) : Nat := s.flags

/-- Getter env_t::isopen. -/
def isopen (s : EnvState) : Bool := s.isopen

/-- Setter env_t::maxdbs, lines 513-518: rejected with MDB_INVALID while
open (storing the code in lasterror_), otherwise stores the value. -/
def maxdbs (s : EnvState) (dbs : Nat) : Int × EnvState :=
  if s.isopen then (MDB_INVALID, { s with lasterror := MDB_INVALID })
  else (MDB_SUCCESS, { s with maxdbs := dbs, lasterror := MDB_SUCCESS })

/-- Setter env_t::maxreaders, lines 529-534: rejected with MDB_INVALID
while open (this one leaves lasterror_ untouched), otherwise stores. -/
def maxreaders (s : EnvState) (readers : Nat) : Int × EnvState :=
  if s.isopen then (MDB_INVALID, s)
  else (MDB_SUCCESS, { s with maxreaders := readers, lasterror := MDB_SUCCESS })

/-- Setter env_t::mmapsize, lines 546-551: rejected with MDB_INVALID
while open, otherwise stores the size. -/
def mmapsize (s : EnvState) (size : Nat) : Int × EnvState :=
  if s.isopen then (MDB_INVALID, { s with lasterror := MDB_INVALID })
  else (MDB_SUCCESS, { s with mapsize := size, lasterror := MDB_SUCCESS })

/-- Setter env_t::mode, lines 570-575: rejected with MDB_INVALID while
open, otherwise stores the file mode. -/
def mode (s : EnvState) (m : Nat) : Int × EnvState :=
  if s.isopen then (MDB_INVALID, { s with lasterror := MDB_INVALID })
  else (MDB_SUCCESS, { s with mode := m, lasterror := MDB_SUCCESS })

/-- Setter env_t::path, lines 597-602: rejected with MDB_INVALID while
open (lasterror_ untouched), otherwise stores the path. -/
def path (s : EnvState) (p : String) : Int × EnvState :=
  if s.isopen then (MDB_INVALID, s)
  else (MDB_SUCCESS, { s with path := p })

/-- env_t::setflags, lines 613-620: rejected with MDB_INVALID while open
(lasterror_ untouched), otherwise folds the variadic pack and stores. -/
def setflags (s : EnvState) (fs : List Nat) : Int × EnvState :=
  if s.isopen then (MDB_INVALID, s)
  else (MDB_SUCCESS, { s with flags := fold_flags fs })

/-- Result codes of the engine primitives invoked during env_t::open, an
oracle for the out-of-scope engine: mdb_env_create, mdb_env_set_maxdbs,
mdb_env_set_maxreaders, mdb_env_set_mapsize and mdb_env_open. -/
structure EngineEnv where
  create_rc : Int
  set_maxdbs_rc : Int
  set_maxreaders_rc : Int
  set_mapsize_rc : Int
  env_open_rc : Int
  deriving DecidableEq, Repr

/-- env_t::create, lines 731-740: cleanup, then mdb_env_create; on
failure the env pointer is nulled. -/
def create (eng : EngineEnv) (s : EnvState) : Int × EnvState :=
  let s := { s with envptr := false, isopen := false }
  if eng.create_rc ≠ MDB_SUCCESS then (eng.create_rc, s)
  else (MDB_SUCCESS, { s with envptr := true })

/-- env_t::cleanup, lines 742-750: close the native handle if held. -/
def cleanup (s : EnvState) : EnvState :=
  if s.envptr then { s with envptr := false, isopen := false } else s

/-- env_t::init, lines 752-766.  Besides the result code and the next
state, the third component reports the flags word actually handed to the
engine primitive mdb_env_open (none when that call is never reached):
the source masks the wrapper-only bit with (flags & ~MDB_EPHEMERAL). -/
def init (eng : EngineEnv) (s : EnvState) (flags : Nat) :
    Int × EnvState × Option Nat :=
  if s.isopen then (MDB_INVALID, s, none)
  else if eng.set_maxdbs_rc ≠ MDB_SUCCESS then (eng.set_maxdbs_rc, s, none)
  else if eng.set_maxreaders_rc ≠ MDB_SUCCESS then (eng.set_maxreaders_rc, s, none)
  else if eng.set_mapsize_rc ≠ MDB_SUCCESS then (eng.set_mapsize_rc, s, none)
  else
    let passed := flags &&& MDB_EPHEMERAL_COMPL
    if eng.env_open_rc ≠ MDB_SUCCESS then (eng.env_open_rc, s, some passed)
    else (MDB_SUCCESS, { s with isopen := true }, some passed)

/-- The default single-file name DEFAULT_NAME joined to the current
directory, used when no path was configured under MDB_NOSUBDIR. -/
def defaultFileOfCwd : String := "./lmdb.mdb"

/-- The current directory, used when no path was configured. -/
def cwdPath : String := "."

/-- The path-defaulting prologue of env_t::open, lines 462-476: an
empty path_ is replaced by the current directory, joined with
DEFAULT_NAME when MDB_NOSUBDIR is set. -/
def resolvePath (s : EnvState) : EnvState :=
  if s.path = "" then
    { s with path := if s.flags &&& MDB_NOSUBDIR ≠ 0 then defaultFileOfCwd else cwdPath }
  else s

/-- env_t::open, lines 459-490.  Filesystem errors while resolving the
default path are out of scope and modelled as not occurring.  The third
component again reports the flags word handed to mdb_env_open, when that
call is reached inside init.  On an init failure the source runs
cleanup() and then create(), ignoring the result code of the latter. -/
def «open» (eng : EngineEnv) (s : EnvState) : Int × EnvState × Option Nat :=
  let s1 := resolvePath { s with lasterror := MDB_SUCCESS }
  if s1.envptr = false ∧ eng.create_rc ≠ MDB_SUCCESS then
    (eng.create_rc, { s1 with lasterror := eng.create_rc }, none)
  else
    let s2 := if s1.envptr then s1 else (create eng s1).2
    let r := init eng s2 s2.flags
    if r.1 ≠ MDB_SUCCESS then
      (r.1, { (create eng (cleanup r.2.1)).2 with lasterror := r.1 }, r.2.2)
    else
      (MDB_SUCCESS, { r.2.1 with lasterror := MDB_SUCCESS }, r.2.2)

end env_t

/-! ### The transaction object txn_t (src/lmdbpp.h lines 798-1037)

The native MDB_txn pointer is modelled by the boolean txnptr (held or
not).  Engine calls on the native transaction are recorded as a call
trace where a claim is about whether the engine is reached. -/

inductive EngineCall where
  | txnAbort
  | txnReset
  | txnRenew
  deriving DecidableEq, Repr

namespace txn_t

inductive type_t where
  | readonly
  | readwrite
  deriving DecidableEq, Repr

end txn_t

structure TxnState where
  envptr : Bool
  txnptr : Bool
  committed : Bool
  type : txn_t.type_t
  deriving DecidableEq, Repr

namespace txn_t

/-- txn_t::pending, lines 1013-1016: a native handle is held and the
transaction is not committed. -/
def pending (s : TxnState) : Bool := s.txnptr && !s.committed

/-- txn_t::handle, lines 1022-1025, as a nullness observation on the
native pointer: true when the stored MDB_txn pointer is non-null. -/
def handleHeld (s : TxnState) : Bool := s.txnptr

/-- txn_t::begin, lines 882-897, with the engine result code of
mdb_txn_begin passed as an oracle. -/
def begin (s : TxnState) (begin_rc : Int) : Int × TxnState :=
  if !s.envptr then (MDB_INVALID, s)
  else if s.txnptr then (MDB_BAD_TXN, s)
  else if begin_rc ≠ MDB_SUCCESS then (begin_rc, s)
  else (MDB_SUCCESS, { s with txnptr := true, committed := false })

/-- txn_t::commit, lines 914-921, with the engine result code of
mdb_txn_commit passed as an oracle.  When the engine call fails the
source returns the code at once, leaving both txnptr_ and committed_
untouched; only on success does it null the pointer and mark the
transaction committed. -/
def commit (s : TxnState) (commit_rc : Int) : Int × TxnState :=
  if !s.txnptr then (MDB_BAD_TXN, s)
  else if commit_rc ≠ MDB_SUCCESS then (commit_rc, s)
  else (MDB_SUCCESS, { s with committed := true, txnptr := false })

/-- txn_t::abort, lines 937-944: mdb_txn_abort is void, so no engine
code is needed; the pointer is nulled and committed_ set. -/
def abort (s : TxnState) : Int × TxnState :=
  if !s.txnptr then (MDB_BAD_TXN, s)
  else (MDB_SUCCESS, { s with txnptr := false, committed := true })

/-- txn_t::reset, lines 961-968.  Null handle is rejected first with
MDB_INVALID, then a transaction whose type is not read-only is rejected
with MDB_BAD_TXN before any engine call; otherwise mdb_txn_reset runs
and committed_ is cleared.  The trace component lists the engine calls
made. -/
def reset (s : TxnState) : Int × TxnState × List EngineCall :=
  if !s.txnptr then (MDB_INVALID, s, [])
  else if s.type ≠ type_t.readonly then (MDB_BAD_TXN, s, [])
  else (MDB_SUCCESS, { s with committed := false }, [.txnReset])

/-- txn_t::renew, lines 986-993: same guards as reset; the result code
of mdb_txn_renew is ignored by the source. -/
def renew (s : TxnState) : Int × TxnState × List EngineCall :=
  if !s.txnptr then (MDB_INVALID, s, [])
  else if s.type ≠ type_t.readonly then (MDB_BAD_TXN, s, [])
  else (MDB_SUCCESS, { s with committed := false }, [.txnRenew])

/-- txn_t::cleanup, lines 1028-1036 (private, invoked by the move
assignment operator): aborts the native transaction when one is held and
not committed, then nulls the pointer.  The trace component lists the
engine calls made. -/
def cleanup (s : TxnState) : TxnState × List EngineCall :=
  ({ s with txnptr := false, committed := true },
   if s.txnptr && !s.committed then [.txnAbort] else [])

/-- The destructor of txn_t.  The class declares no destructor (compare
env_t line 325 and dbi_t line 1065, which do), so C++ generates the
implicit one, which only destroys the members - two raw pointers, a bool
and an enum - and runs no code of the class: in particular it never
invokes cleanup() or mdb_txn_abort.  The state of the engine is left
untouched and the trace of engine calls made by destruction is empty. -/
def destructorCalls (_s : TxnState) : List EngineCall := []

end txn_t

/-! ### The engine key/value store, modelled from the spec

The B+tree engine itself is not part of this repository (spec section 1:
out of scope, consumed through primitive calls; section 6 lists the
record operations as get -> value or not-found, put, delete).  One named
sub-database is modelled as an association list from key bytes to value
bytes; a put shadows earlier bindings of the same key and a delete
removes every binding of the key. -/

abbrev Store : Type := List (List UInt8 × List UInt8)

/-- Modelled from the spec: lookup of the engine map underlying
mdb_get (spec section 6, record operations). -/
def store_get (st : Store) (k : List UInt8) : Option (List UInt8) :=
  match st with
  | [] => none
  | (k', v) :: rest => if k' = k then some v else store_get rest k

/-- Modelled from the spec: the engine primitive mdb_put on one
sub-database (spec sections 4.5 and 6): stores the pair, except that
under the no-overwrite flag an existing key is reported as
MDB_KEYEXIST. -/
def mdb_put_model (st : Store) (k v : List UInt8) (flags : Nat) : Int × Store :=
  if flags &&& MDB_NOOVERWRITE ≠ 0 ∧ (store_get st k).isSome then (MDB_KEYEXIST, st)
  else (MDB_SUCCESS, (k, v) :: st)

/-- Modelled from the spec: the engine primitive mdb_get (spec section
6): the stored value, or not-found. -/
def mdb_get_model (st : Store) (k : List UInt8) : Int × Option (List UInt8) :=
  match store_get st k with
  | some v => (MDB_SUCCESS, some v)
  | none => (MDB_NOTFOUND, none)

/-- Modelled from the spec: the engine primitive mdb_del in its
single-argument form (spec section 4.5: removes all values for the key),
reporting not-found for an absent key. -/
def mdb_del_model (st : Store) (k : List UInt8) : Int × Store :=
  if (store_get st k).isSome then
    (MDB_SUCCESS, st.filter (fun p => p.1 ≠ k))
  else (MDB_NOTFOUND, st)

/-! ### The database handle object dbi_t (src/lmdbpp.h lines 1058-1480)

Each operation returns, besides its result code and outputs, a boolean
recording whether the line invoking the engine primitive was reached
(false when a guard rejected the call before forwarding anything).
Operations whose buffers could be read through an invalid pointer return
an Option, none standing for undefined behaviour; it never arises for
representation-invariant values. -/

structure DbiState where
  dbi : Nat
  opened : Bool
  deriving DecidableEq, Repr

namespace dbi_t

/-- dbi_t::isopen, lines 1308-1311. -/
def isopen (d : DbiState) : Bool := d.opened

/-- dbi_t::open, lines 1119-1130: re-opening an open handle is rejected
with MDB_BAD_DBI, a null transaction handle with MDB_BAD_TXN; otherwise
mdb_dbi_open runs (engine result code and assigned handle as oracle)
and opened_ is set to whether it succeeded. -/
def «open» (d : DbiState) (t : TxnState) (open_rc : Int) (newdbi : Nat) :
    Int × DbiState × Bool :=
  if d.opened then (MDB_BAD_DBI, d, false)
  else if !t.txnptr then (MDB_BAD_TXN, d, false)
  else if open_rc ≠ MDB_SUCCESS then (open_rc, d, true)
  else (MDB_SUCCESS, { d with dbi := newdbi, opened := true }, true)

/-- dbi_t::erase, lines 1150-1154: guard, then mdb_drop with del = 0,
which clears the contents of the sub-database and keeps the handle; the
engine result code is an oracle and the member state is never written
(the method is const). -/
def erase (d : DbiState) (t : TxnState) (st : Store) (drop_rc : Int) :
    Int × DbiState × Store × Bool :=
  if !d.opened || !t.txnptr then (MDB_BAD_DBI, d, st, false)
  else if drop_rc ≠ MDB_SUCCESS then (drop_rc, d, st, true)
  else (MDB_SUCCESS, d, ([] : Store), true)

/-- dbi_t::drop, lines 1176-1182: guard, then mdb_drop with del = 1,
which deletes the sub-database; on engine success opened_ is cleared. -/
def drop (d : DbiState) (t : TxnState) (st : Store) (drop_rc : Int) :
    Int × DbiState × Store × Bool :=
  if !d.opened || !t.txnptr then (MDB_BAD_DBI, d, st, false)
  else if drop_rc ≠ MDB_SUCCESS then (drop_rc, d, st, true)
  else (MDB_SUCCESS, { d with opened := false }, ([] : Store), true)

/-- dbi_t::stat, lines 1342-1346: guard with MDB_BAD_TXN, then mdb_stat
(engine result code as oracle; the statistics themselves are opaque). -/
def stat (d : DbiState) (t : TxnState) (stat_rc : Int) : Int × Bool :=
  if !d.opened || !t.txnptr then (MDB_BAD_TXN, false)
  else (stat_rc, true)

/-- dbi_t::compare_keys, lines 1208-1218: guard with MDB_BAD_TXN, then
the keys are converted and mdb_cmp is invoked (its comparison outcome as
oracle), always reporting success after the guard.  As written the
conversion line passes a single argument to the two-argument
detail::to_mdb_val, so the template cannot be instantiated in C++; the
model follows the source text, in which the guard precedes everything
else. -/
def compare_keys (d : DbiState) (t : TxnState) (_a _b : CppVal) (cmp : Int) :
    Int × Option Int × Bool :=
  if !d.opened || !t.txnptr then (MDB_BAD_TXN, none, false)
  else (MDB_SUCCESS, some cmp, true)

/-- dbi_t::compare_values, lines 1245-1255: same shape as compare_keys,
with mdb_dcmp. -/
def compare_values (d : DbiState) (t : TxnState) (_a _b : CppVal) (cmp : Int) :
    Int × Option Int × Bool :=
  if !d.opened || !t.txnptr then (MDB_BAD_TXN, none, false)
  else (MDB_SUCCESS, some cmp, true)

/-- dbi_t::put, lines 1373-1384: guard with MDB_BAD_TXN, conversion of
key and value through detail::to_mdb_val (whose error exits are
unreachable for serializable types), then the engine put on the bytes
read through the two buffers. -/
def put (d : DbiState) (t : TxnState) (st : Store) (key value : CppVal)
    (flags : Nat) : Option (Int × Store × Bool) :=
  if !d.opened || !t.txnptr then some (MDB_BAD_TXN, st, false)
  else if (to_mdb_val key).1 ≠ MDB_SUCCESS then some ((to_mdb_val key).1, st, false)
  else if (to_mdb_val value).1 ≠ MDB_SUCCESS then some ((to_mdb_val value).1, st, false)
  else
    match readMem (to_mdb_val key).2.mv_data (to_mdb_val key).2.mv_size,
        readMem (to_mdb_val value).2.mv_data (to_mdb_val value).2.mv_size with
    | some kb, some vb =>
        some ((mdb_put_model st kb vb flags).1, (mdb_put_model st kb vb flags).2, true)
    | _, _ => none

/-- dbi_t::get, lines 1406-1419: guard with MDB_BAD_TXN, key conversion,
engine lookup, then decode of the returned buffer through
detail::from_mdb_val into the out-value.  The engine hands back a
pointer to the stored bytes and their length. -/
def get (d : DbiState) (t : TxnState) (st : Store) (key : CppVal)
    (outTy : CppTy) : Option (Int × Option (List UInt8) × Bool) :=
  if !d.opened || !t.txnptr then some (MDB_BAD_TXN, none, false)
  else if (to_mdb_val key).1 ≠ MDB_SUCCESS then some ((to_mdb_val key).1, none, false)
  else
    match readMem (to_mdb_val key).2.mv_data (to_mdb_val key).2.mv_size with
    | none => none
    | some kb =>
        match store_get st kb with
        | none => some (MDB_NOTFOUND, none, true)
        | some vb =>
            match from_mdb_val ⟨vb.length, some vb⟩ outTy with
            | some (.ok c) => some (MDB_SUCCESS, some c, true)
            | some (.err e) => some (e, none, true)
            | none => none

/-- dbi_t::del, single-key form, lines 1438-1447: guard with
MDB_BAD_TXN, key conversion, then the engine delete of the key. -/
def del (d : DbiState) (t : TxnState) (st : Store) (key : CppVal) :
    Option (Int × Store × Bool) :=
  if !d.opened || !t.txnptr then some (MDB_BAD_TXN, st, false)
  else if (to_mdb_val key).1 ≠ MDB_SUCCESS then some ((to_mdb_val key).1, st, false)
  else
    match readMem (to_mdb_val key).2.mv_data (to_mdb_val key).2.mv_size with
    | none => none
    | some kb =>
        some ((mdb_del_model st kb).1, (mdb_del_model st kb).2, true)

/-- dbi_t::del, key-and-value form for duplicate-supporting databases,
lines 1469-1479: guard, both conversions, then the engine delete of the
exact pair.  Duplicates are not modelled beyond the single-value map, so
the engine outcome is the oracle del_rc after both buffers are read. -/
def del2 (d : DbiState) (t : TxnState) (st : Store) (key value : CppVal)
    (del_rc : Int) : Option (Int × Store × Bool) :=
  if !d.opened || !t.txnptr then some (MDB_BAD_TXN, st, false)
  else if (to_mdb_val key).1 ≠ MDB_SUCCESS then some ((to_mdb_val key).1, st, false)
  else if (to_mdb_val value).1 ≠ MDB_SUCCESS then some ((to_mdb_val value).1, st, false)
  else
    match readMem (to_mdb_val key).2.mv_data (to_mdb_val key).2.mv_size,
        readMem (to_mdb_val value).2.mv_data (to_mdb_val value).2.mv_size with
    | some _, some _ => some (del_rc, st, true)
    | _, _ => none

end dbi_t

/-! ### Helper lemmas -/

theorem readMem_self (bs : List UInt8) : readMem (some bs) bs.length = some bs := by
  unfold readMem
  rcases bs with _ | ⟨b, rest⟩
  · simp
  · simp

/-- Reading back the buffer produced by to_mdb_val recovers the content
bytes of any representation-invariant value. -/
theorem readMem_to_mdb_val (v : CppVal) (h : v.WFrep) :
    readMem (to_mdb_val v).2.mv_data (to_mdb_val v).2.mv_size = some v.content := by
  cases v with
  | trivial bs => simpa [to_mdb_val, CppVal.content] using readMem_self bs
  | stdString c => simpa [to_mdb_val, CppVal.content] using readMem_self c
  | vectorByte c dn =>
      cases dn with
      | true =>
          have hc : c = [] := h rfl
          subst hc
          simp [to_mdb_val, CppVal.content, readMem]
      | false => simpa [to_mdb_val, CppVal.content] using readMem_self c
  | vectorChar c => simpa [to_mdb_val, CppVal.content] using readMem_self c

/-- Decoding a buffer holding exactly the content bytes of a value into
the type of that value succeeds for every decodable type. -/
theorem from_mdb_val_content (v : CppVal) (hty : v.ty ≠ CppTy.vecCharTy) :
    from_mdb_val ⟨v.content.length, some v.content⟩ v.ty = some (.ok v.content) := by
  cases v with
  | trivial bs => simp [from_mdb_val, CppVal.ty, CppVal.content, readMem_self]
  | stdString c => simp [from_mdb_val, CppVal.ty, CppVal.content, readMem_self]
  | vectorByte c dn => simp [from_mdb_val, CppVal.ty, CppVal.content, readMem_self]
  | vectorChar c => exact absurd rfl hty

theorem store_get_cons_self (st : Store) (k v : List UInt8) :
    store_get ((k, v) :: st) k = some v := by
  simp [store_get]

theorem store_get_filter_ne (st : Store) (k : List UInt8) :
    store_get (List.filter (fun p => !decide (p.1 = k)) st) k = none := by
  induction st with
  | nil => simp [store_get, List.filter]
  | cons hd tl ih =>
      by_cases h : hd.1 = k
      · simpa [List.filter, h] using ih
      · simpa [List.filter, h, store_get] using ih

/-- All nine transaction-taking dbi_t operations other than open reject
the call without reaching the engine whenever the transaction handle is
null or the database handle is not open. -/
theorem dbi_guard_rejects (d : DbiState) (t : TxnState) (st : Store)
    (k v a b : CppVal) (ty : CppTy) (flags : Nat) (rc cmp : Int)
    (h : t.txnptr = false ∨ d.opened = false) :
    dbi_t.erase d t st rc = (MDB_BAD_DBI, d, st, false) ∧
    dbi_t.drop d t st rc = (MDB_BAD_DBI, d, st, false) ∧
    dbi_t.stat d t rc = (MDB_BAD_TXN, false) ∧
    dbi_t.compare_keys d t a b cmp = (MDB_BAD_TXN, none, false) ∧
    dbi_t.compare_values d t a b cmp = (MDB_BAD_TXN, none, false) ∧
    dbi_t.put d t st k v flags = some (MDB_BAD_TXN, st, false) ∧
    dbi_t.get d t st k ty = some (MDB_BAD_TXN, none, false) ∧
    dbi_t.del d t st k = some (MDB_BAD_TXN, st, false) ∧
    dbi_t.del2 d t st k v rc = some (MDB_BAD_TXN, st, false) := by
  have hg : (!d.opened || !t.txnptr) = true := by
    rcases h with h | h <;> simp [h]
  refine ⟨?_, ?_, ?_, ?_, ?_, ?_, ?_, ?_, ?_⟩ <;>
    simp [dbi_t.erase, dbi_t.drop, dbi_t.stat, dbi_t.compare_keys,
      dbi_t.compare_values, dbi_t.put, dbi_t.get, dbi_t.del, dbi_t.del2, hg]

/-! ### Claim C1 -/

/-- C1, counterexample.  A std::vector of char satisfies the StringLike
concept, so to_mdb_val encodes it (result MDB_SUCCESS), yet
from_mdb_val handles none of the string-like types other than
std::string and std::string_view and returns EINVAL, so the decoded
value never equals the encoded one - the round-trip claim fails on this
supported shape. -/
theorem c1_counterexample :
    (to_mdb_val (.vectorChar [65])).1 = MDB_SUCCESS ∧
    from_mdb_val (to_mdb_val (.vectorChar [65])).2 (CppVal.ty (.vectorChar [65])) =
      some (.err EINVAL) ∧
    from_mdb_val (to_mdb_val (.vectorChar [65])).2 (CppVal.ty (.vectorChar [65])) ≠
      some (.ok (CppVal.content (.vectorChar [65]))) := by
  decide

/-- C1, amended: for every representation-invariant value of a type that
from_mdb_val can decode - a trivially copyable type (std::string_view
and std::span of const std::byte dispatch here through their object
representation), std::string, or std::vector of std::byte - encoding
with to_mdb_val succeeds and decoding the resulting (pointer, length)
into the same type yields an equal value (equal content bytes),
including the empty / zero-length case; string-like buffer types outside
that list (such as std::vector of char) encode but fail to decode. -/
theorem c1_roundtrip (v : CppVal) (hwf : v.WFrep) (hty : v.ty ≠ CppTy.vecCharTy) :
    (to_mdb_val v).1 = MDB_SUCCESS ∧
    from_mdb_val (to_mdb_val v).2 v.ty = some (.ok v.content) := by
  constructor
  · cases v <;> rfl
  · cases v with
    | trivial bs =>
        simpa [to_mdb_val] using from_mdb_val_content (.trivial bs) hty
    | stdString c =>
        simpa [to_mdb_val] using from_mdb_val_content (.stdString c) hty
    | vectorByte c dn =>
        cases dn with
        | true =>
            have hc : c = [] := hwf rfl
            subst hc
            simp [to_mdb_val, CppVal.ty, CppVal.content, from_mdb_val, readMem]
        | false =>
            simpa [to_mdb_val] using from_mdb_val_content (.vectorByte c false) hty
    | vectorChar c => exact absurd rfl hty

/-- C1 witness: the amended round-trip evaluated at the empty
std::string. -/
theorem c1_roundtrip_witness :
    (to_mdb_val (.stdString [])).1 = MDB_SUCCESS ∧
    from_mdb_val (to_mdb_val (.stdString [])).2 (CppVal.ty (.stdString [])) =
      some (.ok (CppVal.content (.stdString []))) :=
  c1_roundtrip (.stdString []) (by decide) (by decide)

/-! ### Claim C9 -/

/-- C9, counterexample.  An empty std::string has size zero but a
guaranteed non-null data() pointer, and to_mdb_val passes that pointer
through unchanged: the encoded pair has zero length but a data pointer
that is not null, contradicting the claim that every zero-length
string-like or byte buffer encodes to a null pointer. -/
theorem c9_counterexample :
    CppVal.isBuffer (.stdString []) = true ∧
    CppVal.content (.stdString []) = [] ∧
    (to_mdb_val (.stdString [])).2.mv_size = 0 ∧
    (to_mdb_val (.stdString [])).2.mv_data ≠ none := by
  decide

/-- C9, amended: a zero-length string-like or byte buffer encodes to
zero length with the buffer's own data() pointer passed through
unchanged - null exactly when the buffer itself reports null, never
forced to null - and any (pointer, 0) pair, the null pointer included,
decodes into the buffer types as an empty value without any memory
read. -/
theorem c9_zero_length (v : CppVal) (p : Option (List UInt8))
    (hb : v.isBuffer = true) (hc : v.content = []) :
    (to_mdb_val v).2.mv_size = 0 ∧
    ((to_mdb_val v).2.mv_data = none ∨ (to_mdb_val v).2.mv_data = some []) ∧
    from_mdb_val ⟨0, p⟩ .stringTy = some (.ok []) ∧
    from_mdb_val ⟨0, p⟩ .vecByteTy = some (.ok []) := by
  refine ⟨?_, ?_, ?_, ?_⟩
  · cases v with
    | trivial bs => simp [CppVal.isBuffer] at hb
    | stdString c => simp [CppVal.content] at hc; simp [to_mdb_val, hc]
    | vectorByte c dn => simp [CppVal.content] at hc; simp [to_mdb_val, hc]
    | vectorChar c => simp [CppVal.content] at hc; simp [to_mdb_val, hc]
  · cases v with
    | trivial bs => simp [CppVal.isBuffer] at hb
    | stdString c => simp [CppVal.content] at hc; simp [to_mdb_val, hc]
    | vectorByte c dn =>
        simp [CppVal.content] at hc
        cases dn <;> simp [to_mdb_val, hc]
    | vectorChar c => simp [CppVal.content] at hc; simp [to_mdb_val, hc]
  · simp [from_mdb_val, readMem]
  · simp [from_mdb_val, readMem]

/-- to_mdb_val never fails on a serializable value: the EINVAL fallback
branch is compiled out by the concept constraint. -/
theorem to_mdb_val_rc (v : CppVal) : (to_mdb_val v).1 = MDB_SUCCESS := by
  cases v <;> rfl

/-! ### Claim C2 -/

/-- C2, counterexample.  With an open handle and a pending read-write
transaction, putting the value std::vector of char containing the byte
65 under key "k" succeeds (the engine stores the bytes), but the
following get of the same key decoding into the same type returns EINVAL
instead of succeeding with the written value, because from_mdb_val does
not handle that string-like type. -/
theorem c2_counterexample :
    dbi_t.put ⟨1, true⟩ ⟨true, true, false, .readwrite⟩ []
        (.stdString [107]) (.vectorChar [65]) 0
      = some (MDB_SUCCESS, [([107], [65])], true) ∧
    dbi_t.get ⟨1, true⟩ ⟨true, true, false, .readwrite⟩ [([107], [65])]
        (.stdString [107]) (CppVal.ty (.vectorChar [65]))
      = some (EINVAL, none, true) ∧
    EINVAL ≠ MDB_SUCCESS := by
  decide

/-- C2, amended: for every open handle and every transaction holding a
native handle, and for representation-invariant key and value where the
value has a type from_mdb_val can decode (trivially copyable,
std::string, or std::vector of std::byte - values of other string-like
types such as std::vector of char store fine but cannot be read back), a
successful put followed by a get of the same key in the same transaction
succeeds and returns the just-written value; and a successful del
followed by a get of the same key returns MDB_NOTFOUND. -/
theorem c2_put_get_del (d : DbiState) (t : TxnState) (st st1 st2 : Store)
    (k v : CppVal) (outTy : CppTy) (flags : Nat)
    (hk : k.WFrep) (hv : v.WFrep) (hty : v.ty ≠ CppTy.vecCharTy) :
    (dbi_t.put d t st k v flags = some (MDB_SUCCESS, st1, true) →
      dbi_t.get d t st1 k v.ty = some (MDB_SUCCESS, some v.content, true)) ∧
    (dbi_t.del d t st k = some (MDB_SUCCESS, st2, true) →
      dbi_t.get d t st2 k outTy = some (MDB_NOTFOUND, none, true)) := by
  have hkrc := to_mdb_val_rc k
  have hvrc := to_mdb_val_rc v
  have hkrd := readMem_to_mdb_val k hk
  have hvrd := readMem_to_mdb_val v hv
  by_cases hg : (!d.opened || !t.txnptr) = true
  · constructor
    · intro hput
      simp [dbi_t.put, hg] at hput
    · intro hdel
      simp [dbi_t.del, hg] at hdel
  · have hg' : (!d.opened || !t.txnptr) = false := by
      revert hg; cases (!d.opened || !t.txnptr) <;> simp
    constructor
    · intro hput
      simp only [dbi_t.put, hg', hkrc, hvrc, hkrd, hvrd, if_false,
        Bool.false_eq_true, ne_eq, not_true_eq_false, ite_false] at hput
      by_cases hov : flags &&& MDB_NOOVERWRITE ≠ 0 ∧ (store_get st k.content).isSome
      · simp only [mdb_put_model, if_pos hov, Option.some.injEq,
          Prod.mk.injEq] at hput
        exact absurd hput.1 (by decide)
      · simp only [mdb_put_model, if_neg hov, Option.some.injEq,
          Prod.mk.injEq] at hput
        obtain ⟨-, hst, -⟩ := hput
        subst hst
        simp [dbi_t.get, hg', hkrc, hkrd, store_get_cons_self,
          from_mdb_val_content v hty]
    · intro hdel
      simp only [dbi_t.del, hg', hkrc, hkrd, if_false, Bool.false_eq_true,
        ne_eq, not_true_eq_false, ite_false] at hdel
      by_cases hex : (store_get st k.content).isSome
      · simp only [mdb_del_model, if_pos hex, Option.some.injEq,
          Prod.mk.injEq] at hdel
        obtain ⟨-, hst, -⟩ := hdel
        subst hst
        simp [dbi_t.get, hg', hkrc, hkrd, store_get_filter_ne]
      · simp only [mdb_del_model, if_neg hex, Option.some.injEq,
          Prod.mk.injEq] at hdel
        exact absurd hdel.1 (by decide)

/-- C2 witness: the amended statement evaluated on a concrete store.
The key "k" (byte 107) starts out bound to byte 120; putting the
std::string "h" (byte 104) and reading it back returns it, and deleting
the key and reading it back returns MDB_NOTFOUND. -/
theorem c2_put_get_del_witness :
    dbi_t.get ⟨1, true⟩ ⟨true, true, false, .readwrite⟩
        (([107], [104]) :: [([107], [120])]) (.stdString [107])
        (CppVal.ty (.stdString [104]))
      = some (MDB_SUCCESS, some (CppVal.content (.stdString [104])), true) ∧
    dbi_t.get ⟨1, true⟩ ⟨true, true, false, .readwrite⟩ []
        (.stdString [107]) CppTy.stringTy
      = some (MDB_NOTFOUND, none, true) :=
  ⟨(c2_put_get_del ⟨1, true⟩ ⟨true, true, false, .readwrite⟩ [([107], [120])]
      (([107], [104]) :: [([107], [120])]) [] (.stdString [107])
      (.stdString [104]) CppTy.stringTy 0 (by decide) (by decide)
      (by decide)).1 (by decide),
   (c2_put_get_del ⟨1, true⟩ ⟨true, true, false, .readwrite⟩ [([107], [120])]
      (([107], [104]) :: [([107], [120])]) [] (.stdString [107])
      (.stdString [104]) CppTy.stringTy 0 (by decide) (by decide)
      (by decide)).2 (by decide)⟩

/-! ### Claim C3 -/

/-- C3: the code is wrong.  At a pending transaction (native handle
held, not committed), destruction must be equivalent to abort - yet
txn_t declares no destructor, so the implicitly generated one performs
no engine call at all: the trace of destruction is empty, while the
private cleanup() routine (which the destructor would have to invoke,
and which the move assignment operator does invoke) aborts the native
transaction.  The class documentation (src/lmdbpp.h lines 773-774)
states that on destruction the transaction is aborted unless it was
explicitly committed, so the code contradicts its own documentation. -/
theorem c3_destructor_never_aborts :
    txn_t.pending ⟨true, true, false, .readwrite⟩ = true ∧
    txn_t.destructorCalls ⟨true, true, false, .readwrite⟩ = [] ∧
    txn_t.cleanup ⟨true, true, false, .readwrite⟩ =
      (⟨true, false, true, .readwrite⟩, [EngineCall.txnAbort]) ∧
    txn_t.destructorCalls ⟨true, true, false, .readwrite⟩ ≠
      (txn_t.cleanup ⟨true, true, false, .readwrite⟩).2 := by
  decide

/-! ### Claim C4 -/

/-- C4, counterexample.  Committing a pending read-write transaction
when the engine commit fails (here with MDB_MAP_FULL = -30792) returns
the engine code but leaves the native handle held and the transaction
pending: the source nulls txnptr_ only on the success path, so the
handle is not invalidated on every commit() call. -/
theorem c4_counterexample :
    txn_t.pending ⟨true, true, false, .readwrite⟩ = true ∧
    txn_t.commit ⟨true, true, false, .readwrite⟩ (-30792) =
      (-30792, ⟨true, true, false, .readwrite⟩) ∧
    txn_t.handleHeld (txn_t.commit ⟨true, true, false, .readwrite⟩ (-30792)).2 = true ∧
    txn_t.pending (txn_t.commit ⟨true, true, false, .readwrite⟩ (-30792)).2 = true := by
  decide

/-- C4, amended: commit() on a pending transaction invalidates the
native handle exactly when the engine commit succeeds; when the engine
commit fails, the wrapper returns the engine code and leaves the object
unchanged - handle still held, still pending (the source comment
directs the caller to abort manually). -/
theorem c4_commit_invalidates_only_on_success (s : TxnState) (rc : Int)
    (hp : txn_t.pending s = true) :
    ((txn_t.commit s rc).1 = MDB_SUCCESS →
      txn_t.handleHeld (txn_t.commit s rc).2 = false ∧
      txn_t.pending (txn_t.commit s rc).2 = false) ∧
    (rc ≠ MDB_SUCCESS → txn_t.commit s rc = (rc, s)) := by
  have htx : s.txnptr = true := by
    have := hp
    simp [txn_t.pending] at this
    exact this.1
  constructor
  · intro hok
    by_cases hrc : rc = MDB_SUCCESS
    · subst hrc
      simp [txn_t.commit, txn_t.handleHeld, txn_t.pending, htx]
    · simp [txn_t.commit, htx, hrc] at hok
  · intro hrc
    simp [txn_t.commit, htx, hrc]

/-- C4 witness: the amended statement at a pending read-write
transaction with a succeeding engine commit. -/
theorem c4_commit_witness :
    txn_t.handleHeld (txn_t.commit ⟨true, true, false, .readwrite⟩ MDB_SUCCESS).2 = false ∧
    txn_t.pending (txn_t.commit ⟨true, true, false, .readwrite⟩ MDB_SUCCESS).2 = false :=
  (c4_commit_invalidates_only_on_success ⟨true, true, false, .readwrite⟩
      MDB_SUCCESS (by decide)).1 (by decide)

/-! ### Claim C6 -/

/-- C6: on a pending read-write transaction both reset() and renew()
return the type-mismatch code MDB_BAD_TXN, make no engine call, and
leave the transaction object unchanged - still pending, native handle
still held and usable. -/
theorem c6_reset_renew_readwrite (s : TxnState)
    (hty : s.type = txn_t.type_t.readwrite) (hp : txn_t.pending s = true) :
    txn_t.reset s = (MDB_BAD_TXN, s, []) ∧
    txn_t.renew s = (MDB_BAD_TXN, s, []) ∧
    txn_t.pending (txn_t.reset s).2.1 = true ∧
    txn_t.handleHeld (txn_t.reset s).2.1 = true ∧
    txn_t.pending (txn_t.renew s).2.1 = true ∧
    txn_t.handleHeld (txn_t.renew s).2.1 = true := by
  have hb : s.txnptr = true ∧ s.committed = false := by
    have := hp
    simp [txn_t.pending] at this
    exact this
  refine ⟨?_, ?_, ?_, ?_, ?_, ?_⟩ <;>
    simp [txn_t.reset, txn_t.renew, txn_t.pending, txn_t.handleHeld, hb.1, hb.2, hty]

/-- C6 witness: reset and renew evaluated on a concrete pending
read-write transaction. -/
theorem c6_reset_renew_witness :
    txn_t.reset ⟨true, true, false, .readwrite⟩ =
      (MDB_BAD_TXN, ⟨true, true, false, .readwrite⟩, []) ∧
    txn_t.renew ⟨true, true, false, .readwrite⟩ =
      (MDB_BAD_TXN, ⟨true, true, false, .readwrite⟩, []) :=
  ⟨(c6_reset_renew_readwrite ⟨true, true, false, .readwrite⟩ rfl (by decide)).1,
   (c6_reset_renew_readwrite ⟨true, true, false, .readwrite⟩ rfl (by decide)).2.1⟩

/-! ### Claim C5 -/

/-- C5: while the environment is open, every configuration mutator -
maxdbs, maxreaders, mmapsize, mode, path and setflags - returns
MDB_INVALID and leaves the stored configuration value unchanged; while
it is not open, each mutator stores the new value and succeeds. -/
theorem c5_config_mutators (s : EnvState) (dbs readers size m : Nat)
    (p : String) (fs : List Nat) :
    (s.isopen = true →
      env_t.maxdbs s dbs = (MDB_INVALID, { s with lasterror := MDB_INVALID }) ∧
      (env_t.maxdbs s dbs).2.maxdbs = s.maxdbs ∧
      env_t.maxreaders s readers = (MDB_INVALID, s) ∧
      env_t.mmapsize s size = (MDB_INVALID, { s with lasterror := MDB_INVALID }) ∧
      (env_t.mmapsize s size).2.mapsize = s.mapsize ∧
      env_t.mode s m = (MDB_INVALID, { s with lasterror := MDB_INVALID }) ∧
      (env_t.mode s m).2.mode = s.mode ∧
      env_t.path s p = (MDB_INVALID, s) ∧
      env_t.setflags s fs = (MDB_INVALID, s)) ∧
    (s.isopen = false →
      (env_t.maxdbs s dbs).1 = MDB_SUCCESS ∧
      (env_t.maxdbs s dbs).2.maxdbs = dbs ∧
      (env_t.maxreaders s readers).1 = MDB_SUCCESS ∧
      (env_t.maxreaders s readers).2.maxreaders = readers ∧
      (env_t.mmapsize s size).1 = MDB_SUCCESS ∧
      (env_t.mmapsize s size).2.mapsize = size ∧
      (env_t.mode s m).1 = MDB_SUCCESS ∧
      (env_t.mode s m).2.mode = m ∧
      (env_t.path s p).1 = MDB_SUCCESS ∧
      (env_t.path s p).2.path = p ∧
      (env_t.setflags s fs).1 = MDB_SUCCESS ∧
      (env_t.setflags s fs).2.flags = fold_flags fs) := by
  constructor
  · intro h
    simp [env_t.maxdbs, env_t.maxreaders, env_t.mmapsize, env_t.mode,
      env_t.path, env_t.setflags, h]
  · intro h
    simp [env_t.maxdbs, env_t.maxreaders, env_t.mmapsize, env_t.mode,
      env_t.path, env_t.setflags, h]

/-- C5 witness: the open half on a concrete open environment and the
closed half on the same environment closed. -/
theorem c5_config_mutators_witness :
    env_t.maxdbs ⟨true, true, 128, 512, 100, 420, 0, "x", 0⟩ 7 =
      (MDB_INVALID, ⟨true, true, 128, 512, 100, 420, 0, "x", MDB_INVALID⟩) ∧
    (env_t.maxdbs ⟨true, false, 128, 512, 100, 420, 0, "x", 0⟩ 7).2.maxdbs = 7 := by
  refine ⟨?_, ?_⟩
  · exact ((c5_config_mutators ⟨true, true, 128, 512, 100, 420, 0, "x", 0⟩
      7 9 11 13 "y" []).1 rfl).1
  · exact ((c5_config_mutators ⟨true, false, 128, 512, 100, 420, 0, "x", 0⟩
      7 9 11 13 "y" []).2 rfl).2.1

/-! ### Claim C7 -/

/-- C7: every dbi_t operation taking a transaction argument verifies the
transaction carries a native handle - and, except for open, that the
database handle is open - and returns an error without any engine call
when either check fails.  (The open operation additionally rejects an
already-open handle, also before reaching the engine.) -/
theorem c7_operations_guarded (d : DbiState) (t : TxnState) (st : Store)
    (k v a b : CppVal) (ty : CppTy) (flags newdbi : Nat) (rc cmp : Int) :
    (t.txnptr = false →
      (dbi_t.open d t rc newdbi).1 ≠ MDB_SUCCESS ∧
      (dbi_t.open d t rc newdbi).2.2 = false) ∧
    (t.txnptr = false ∨ d.opened = false →
      dbi_t.erase d t st rc = (MDB_BAD_DBI, d, st, false) ∧
      dbi_t.drop d t st rc = (MDB_BAD_DBI, d, st, false) ∧
      dbi_t.stat d t rc = (MDB_BAD_TXN, false) ∧
      dbi_t.compare_keys d t a b cmp = (MDB_BAD_TXN, none, false) ∧
      dbi_t.compare_values d t a b cmp = (MDB_BAD_TXN, none, false) ∧
      dbi_t.put d t st k v flags = some (MDB_BAD_TXN, st, false) ∧
      dbi_t.get d t st k ty = some (MDB_BAD_TXN, none, false) ∧
      dbi_t.del d t st k = some (MDB_BAD_TXN, st, false) ∧
      dbi_t.del2 d t st k v rc = some (MDB_BAD_TXN, st, false)) := by
  constructor
  · intro h
    by_cases hd : d.opened
    · constructor
      · simp [dbi_t.open, hd]
        decide
      · simp [dbi_t.open, hd]
    · constructor
      · simp [dbi_t.open, hd, h]
        decide
      · simp [dbi_t.open, hd, h]
  · exact dbi_guard_rejects d t st k v a b ty flags rc cmp

/-- C7 witness: the guards evaluated at a transaction without a native
handle and a closed database handle. -/
theorem c7_operations_guarded_witness :
    (dbi_t.open ⟨0, false⟩ ⟨true, false, true, .readwrite⟩ MDB_SUCCESS 5).2.2 = false ∧
    dbi_t.stat ⟨0, false⟩ ⟨true, false, true, .readwrite⟩ MDB_SUCCESS =
      (MDB_BAD_TXN, false) :=
  ⟨((c7_operations_guarded ⟨0, false⟩ ⟨true, false, true, .readwrite⟩ []
      (.stdString []) (.stdString []) (.stdString []) (.stdString [])
      CppTy.stringTy 0 5 MDB_SUCCESS 0).1 rfl).2,
   ((c7_operations_guarded ⟨0, false⟩ ⟨true, false, true, .readwrite⟩ []
      (.stdString []) (.stdString []) (.stdString []) (.stdString [])
      CppTy.stringTy 0 5 MDB_SUCCESS 0).2 (Or.inl rfl)).2.2.1⟩

/-! ### Claim C8 -/

/-- C8: with an open handle and a transaction holding a native handle,
a successful erase returns success, clears the contents, keeps the
handle state untouched (still open), and subsequent operations such as
get and put pass the guards and reach the engine; a successful drop
returns success, invalidates the handle (isopen false), and every
further transaction-taking operation on it fails with an error without
reaching the engine. -/
theorem c8_erase_keeps_drop_invalidates (d : DbiState) (t : TxnState)
    (st : Store) (k v a b : CppVal) (ty : CppTy) (flags : Nat) (rc cmp : Int)
    (hop : d.opened = true) (htx : t.txnptr = true)
    (hk : k.WFrep) (hv : v.WFrep) :
    dbi_t.erase d t st MDB_SUCCESS = (MDB_SUCCESS, d, [], true) ∧
    dbi_t.isopen (dbi_t.erase d t st MDB_SUCCESS).2.1 = true ∧
    dbi_t.get (dbi_t.erase d t st MDB_SUCCESS).2.1 t
        (dbi_t.erase d t st MDB_SUCCESS).2.2.1 k ty
      = some (MDB_NOTFOUND, none, true) ∧
    dbi_t.put (dbi_t.erase d t st MDB_SUCCESS).2.1 t
        (dbi_t.erase d t st MDB_SUCCESS).2.2.1 k v flags
      = some ((mdb_put_model [] k.content v.content flags).1,
          (mdb_put_model [] k.content v.content flags).2, true) ∧
    dbi_t.drop d t st MDB_SUCCESS =
      (MDB_SUCCESS, { d with opened := false }, [], true) ∧
    dbi_t.isopen (dbi_t.drop d t st MDB_SUCCESS).2.1 = false ∧
    (dbi_t.erase (dbi_t.drop d t st MDB_SUCCESS).2.1 t st rc).1 = MDB_BAD_DBI ∧
    dbi_t.stat (dbi_t.drop d t st MDB_SUCCESS).2.1 t rc = (MDB_BAD_TXN, false) ∧
    dbi_t.compare_keys (dbi_t.drop d t st MDB_SUCCESS).2.1 t a b cmp =
      (MDB_BAD_TXN, none, false) ∧
    dbi_t.put (dbi_t.drop d t st MDB_SUCCESS).2.1 t st k v flags =
      some (MDB_BAD_TXN, st, false) ∧
    dbi_t.get (dbi_t.drop d t st MDB_SUCCESS).2.1 t st k ty =
      some (MDB_BAD_TXN, none, false) ∧
    dbi_t.del (dbi_t.drop d t st MDB_SUCCESS).2.1 t st k =
      some (MDB_BAD_TXN, st, false) := by
  have hg : (!d.opened || !t.txnptr) = false := by simp [hop, htx]
  have herase : dbi_t.erase d t st MDB_SUCCESS = (MDB_SUCCESS, d, [], true) := by
    simp [dbi_t.erase, hg]
  have hdrop : dbi_t.drop d t st MDB_SUCCESS =
      (MDB_SUCCESS, { d with opened := false }, [], true) := by
    simp [dbi_t.drop, hg]
  have hdropped : ((dbi_t.drop d t st MDB_SUCCESS).2.1).opened = false := by
    rw [hdrop]
  have hrej := dbi_guard_rejects (dbi_t.drop d t st MDB_SUCCESS).2.1 t st
    k v a b ty flags rc cmp (Or.inr hdropped)
  refine ⟨herase, ?_, ?_, ?_, hdrop, ?_, ?_, ?_, ?_, ?_, ?_, ?_⟩
  · rw [herase]; exact hop
  · rw [herase]
    simp [dbi_t.get, hg, to_mdb_val_rc k, readMem_to_mdb_val k hk, store_get]
  · rw [herase]
    simp [dbi_t.put, hg, to_mdb_val_rc k, to_mdb_val_rc v,
      readMem_to_mdb_val k hk, readMem_to_mdb_val v hv]
  · rw [hdrop]; rfl
  · rw [hrej.1]
  · exact hrej.2.2.1
  · exact hrej.2.2.2.1
  · exact hrej.2.2.2.2.2.1
  · exact hrej.2.2.2.2.2.2.1
  · exact hrej.2.2.2.2.2.2.2.1

/-- C8 witness: erase then use, and drop then rejection, on a concrete
open handle and pending read-write transaction. -/
theorem c8_erase_keeps_drop_invalidates_witness :
    dbi_t.erase ⟨1, true⟩ ⟨true, true, false, .readwrite⟩ [([1], [2])] MDB_SUCCESS
      = (MDB_SUCCESS, ⟨1, true⟩, [], true) ∧
    dbi_t.drop ⟨1, true⟩ ⟨true, true, false, .readwrite⟩ [([1], [2])] MDB_SUCCESS
      = (MDB_SUCCESS, ⟨1, false⟩, [], true) :=
  ⟨(c8_erase_keeps_drop_invalidates ⟨1, true⟩ ⟨true, true, false, .readwrite⟩
      [([1], [2])] (.stdString [107]) (.stdString [104]) (.stdString [])
      (.stdString []) CppTy.stringTy 0 MDB_SUCCESS 0 rfl rfl (by decide)
      (by decide)).1,
   (c8_erase_keeps_drop_invalidates ⟨1, true⟩ ⟨true, true, false, .readwrite⟩
      [([1], [2])] (.stdString [107]) (.stdString [104]) (.stdString [])
      (.stdString []) CppTy.stringTy 0 MDB_SUCCESS 0 rfl rfl (by decide)
      (by decide)).2.2.2.2.1⟩

/-! ### Claim C10 -/

theorem init_passed_flags (eng : env_t.EngineEnv) (s : EnvState) (f g : Nat)
    (h : (env_t.init eng s f).2.2 = some g) : g = f &&& MDB_EPHEMERAL_COMPL := by
  unfold env_t.init at h
  split at h
  · exact absurd h (by simp)
  · split at h
    · exact absurd h (by simp)
    · split at h
      · exact absurd h (by simp)
      · split at h
        · exact absurd h (by simp)
        · split at h <;> simpa using h.symm

theorem init_flags_unchanged (eng : env_t.EngineEnv) (s : EnvState) (f : Nat) :
    ((env_t.init eng s f).2.1).flags = s.flags := by
  unfold env_t.init
  split
  · rfl
  · split
    · rfl
    · split
      · rfl
      · split
        · rfl
        · split <;> rfl

theorem create_flags_unchanged (eng : env_t.EngineEnv) (s : EnvState) :
    ((env_t.create eng s).2).flags = s.flags := by
  unfold env_t.create
  split <;> rfl

theorem cleanup_flags_unchanged (s : EnvState) :
    (env_t.cleanup s).flags = s.flags := by
  unfold env_t.cleanup
  split <;> rfl

/-- A word already masked with the complement of the ephemeral bit has
that bit clear. -/
theorem masked_ephemeral_clear (f : Nat) :
    (f &&& MDB_EPHEMERAL_COMPL) &&& MDB_EPHEMERAL = 0 := by
  unfold MDB_EPHEMERAL MDB_EPHEMERAL_COMPL
  rw [Nat.land_assoc]
  have h : (0xEFFFFFFF : Nat) &&& 0x10000000 = 0 := by decide
  simp [h]

theorem resolvePath_flags (s : EnvState) :
    (env_t.resolvePath s).flags = s.flags := by
  unfold env_t.resolvePath
  split <;> rfl

/-- Over every branch of env_t::open: the stored flags_ member survives
unchanged, and any flags word handed to the engine primitive
mdb_env_open is the configured word masked with the complement of the
ephemeral bit. -/
theorem open_flags_and_passed (eng : env_t.EngineEnv) (s : EnvState) :
    ((env_t.open eng s).2.1).flags = s.flags ∧
    (∀ g, (env_t.open eng s).2.2 = some g →
      g = s.flags &&& MDB_EPHEMERAL_COMPL) := by
  simp only [env_t.open]
  generalize hs1eq : env_t.resolvePath { s with lasterror := MDB_SUCCESS } = s1
  have hs1f : s1.flags = s.flags := by
    rw [← hs1eq, resolvePath_flags]
  by_cases hc : s1.envptr = false ∧ eng.create_rc ≠ MDB_SUCCESS
  · rw [if_pos hc]
    exact ⟨hs1f, fun g hg => absurd hg (by simp)⟩
  · rw [if_neg hc]
    have hs2f : (if s1.envptr then s1 else (env_t.create eng s1).2).flags = s.flags := by
      by_cases hp : s1.envptr = true
      · rw [if_pos hp]; exact hs1f
      · rw [if_neg hp, create_flags_unchanged, hs1f]
    generalize hs2eq : (if s1.envptr then s1 else (env_t.create eng s1).2) = s2 at hs2f ⊢
    have hrf : ((env_t.init eng s2 s2.flags).2.1).flags = s.flags := by
      rw [init_flags_unchanged, hs2f]
    have hrp : ∀ g, (env_t.init eng s2 s2.flags).2.2 = some g →
        g = s.flags &&& MDB_EPHEMERAL_COMPL := by
      intro g hg
      rw [init_passed_flags eng s2 s2.flags g hg, hs2f]
    generalize hreq : env_t.init eng s2 s2.flags = r at hrf hrp
    by_cases hrc : r.1 ≠ MDB_SUCCESS
    · rw [if_pos hrc]
      refine ⟨?_, hrp⟩
      simp only []
      rw [create_flags_unchanged, cleanup_flags_unchanged, hrf]
    · rw [if_neg hrc]
      exact ⟨hrf, hrp⟩

/-- C10: whatever flags are configured, when env_t::open reaches the
engine primitive mdb_env_open it passes the configured word masked with
the complement of the wrapper-only MDB_EPHEMERAL bit - so the ephemeral
bit is never forwarded to the engine - while the stored flags_ member is
not modified by open, so getflags() keeps reporting the ephemeral bit
whenever it was configured. -/
theorem c10_ephemeral_masked (eng : env_t.EngineEnv) (s : EnvState) (g : Nat) :
    ((env_t.open eng s).2.2 = some g →
      g = s.flags &&& MDB_EPHEMERAL_COMPL ∧ g &&& MDB_EPHEMERAL = 0) ∧
    env_t.getflags ((env_t.open eng s).2.1) = s.flags ∧
    (s.flags &&& MDB_EPHEMERAL ≠ 0 →
      env_t.getflags ((env_t.open eng s).2.1) &&& MDB_EPHEMERAL ≠ 0) := by
  obtain ⟨hf, hp⟩ := open_flags_and_passed eng s
  refine ⟨?_, hf, ?_⟩
  · intro hg
    have := hp g hg
    subst this
    exact ⟨rfl, masked_ephemeral_clear s.flags⟩
  · intro hset
    rw [env_t.getflags, hf]
    exact hset

/-- C10 witness: an environment configured with only the ephemeral bit
set, opened with an all-success engine, passes flags word 0 to
mdb_env_open while getflags still reports the ephemeral bit. -/
theorem c10_ephemeral_masked_witness :
    (env_t.open ⟨MDB_SUCCESS, MDB_SUCCESS, MDB_SUCCESS, MDB_SUCCESS, MDB_SUCCESS⟩
        ⟨false, false, 128, 512, 100, 420, MDB_EPHEMERAL, "x", 0⟩).2.2 =
      some (MDB_EPHEMERAL &&& MDB_EPHEMERAL_COMPL) ∧
    MDB_EPHEMERAL &&& MDB_EPHEMERAL_COMPL &&& MDB_EPHEMERAL = 0 ∧
    env_t.getflags ((env_t.open
        ⟨MDB_SUCCESS, MDB_SUCCESS, MDB_SUCCESS, MDB_SUCCESS, MDB_SUCCESS⟩
        ⟨false, false, 128, 512, 100, 420, MDB_EPHEMERAL, "x", 0⟩).2.1) &&&
      MDB_EPHEMERAL ≠ 0 := by
  have hpass : (env_t.open
      ⟨MDB_SUCCESS, MDB_SUCCESS, MDB_SUCCESS, MDB_SUCCESS, MDB_SUCCESS⟩
      ⟨false, false, 128, 512, 100, 420, MDB_EPHEMERAL, "x", 0⟩).2.2 =
      some (MDB_EPHEMERAL &&& MDB_EPHEMERAL_COMPL) := by decide
  refine ⟨hpass, ?_, ?_⟩
  · exact ((c10_ephemeral_masked
      ⟨MDB_SUCCESS, MDB_SUCCESS, MDB_SUCCESS, MDB_SUCCESS, MDB_SUCCESS⟩
      ⟨false, false, 128, 512, 100, 420, MDB_EPHEMERAL, "x", 0⟩
      (MDB_EPHEMERAL &&& MDB_EPHEMERAL_COMPL)).1 hpass).2
  · exact (c10_ephemeral_masked
      ⟨MDB_SUCCESS, MDB_SUCCESS, MDB_SUCCESS, MDB_SUCCESS, MDB_SUCCESS⟩
      ⟨false, false, 128, 512, 100, 420, MDB_EPHEMERAL, "x", 0⟩
      (MDB_EPHEMERAL &&& MDB_EPHEMERAL_COMPL)).2.2 (by decide)

/-- C9 witness: the amended statement evaluated at an empty
std::vector of std::byte whose data() is null, decoded against the null
pointer. -/
theorem c9_zero_length_witness :
    (to_mdb_val (.vectorByte [] true)).2.mv_size = 0 ∧
    ((to_mdb_val (.vectorByte [] true)).2.mv_data = none ∨
      (to_mdb_val (.vectorByte [] true)).2.mv_data = some []) ∧
    from_mdb_val ⟨0, none⟩ .stringTy = some (.ok []) ∧
    from_mdb_val ⟨0, none⟩ .vecByteTy = some (.ok []) :=
  c9_zero_length (.vectorByte [] true) none (by decide) (by decide)

end Lmdbpp
